import Mathlib

/-!
Verification development for the MidTerm marketing-video tooling
(`create_clip.py`, `chain_clips.py`).  The Python sources are shallowly
embedded below: pure control flow becomes Lean functions, Python numbers
become `ℚ`, raised exceptions become an explicit `Except` error channel,
and the external collaborators (generative services, ffmpeg/ffprobe)
are passed in as stub data.
-/

set_option autoImplicit false

namespace MidTerm

/-- Model of the Python exception values that flow through `create_clip.py`
and `chain_clips.py`.  `systemExit` models `sys.exit(code)` (a
`SystemExit`, which derives from `BaseException`, not `Exception`).
The source defines no RetryExhausted class anywhere; the
`retryExhausted` constructor exists only so that the specification's
phrase "a RetryExhausted error wrapping the last observed error" can be
stated and compared against what the code actually raises. -/
inductive PyErr where
  | exception (msg : String)
  | valueError (msg : String)
  | typeError (msg : String)
  | systemExit (code : Int)
  | retryExhausted (wrapped : PyErr)
deriving DecidableEq

/-- Model of Python `str(e)` for the exceptions above, as consumed by the
substring tests in `retry_on_429` (line 44 of create_clip.py). -/
def errStr : PyErr → String
  | .exception m => m
  | .valueError m => m
  | .typeError m => m
  | .systemExit c => toString c
  | .retryExhausted e => errStr e

/-- Model of Python `needle in hay` on strings. -/
def strContains (hay needle : String) : Bool :=
  (List.range (hay.data.length + 1)).any fun i => needle.data.isPrefixOf (hay.data.drop i)

/-- The `except Exception` clause at line 43 of create_clip.py catches
`Exception` subclasses only; `SystemExit` (from `sys.exit`) derives from
`BaseException` and propagates uncaught. -/
def isException : PyErr → Bool
  | .systemExit _ => false
  | _ => true

/-- The transient-error test at line 45 of create_clip.py:
`"429" in error_str or "RESOURCE_EXHAUSTED" in error_str`. -/
def is429 (e : PyErr) : Bool :=
  strContains (errStr e) "429" || strContains (errStr e) "RESOURCE_EXHAUSTED"

/-- create_clip.py line 28. -/
def BASE_DELAY : ℚ := 5

/-- create_clip.py line 29. -/
def MAX_DELAY : ℚ := 120

/-- The backoff computation at line 47 of create_clip.py:
`delay = min(BASE_DELAY * (2 ** attempt) + random.uniform(0, 2), MAX_DELAY)`.
The jitter drawn from `random.uniform(0, 2)` is passed in explicitly. -/
def delayFor (attempt : Nat) (jitter : ℚ) : ℚ :=
  min (BASE_DELAY * 2 ^ attempt + jitter) MAX_DELAY

/-- Observable outcome of one `retry_on_429`-wrapped call: how many times
the wrapped function was invoked, the sleeps performed (in seconds), and
the value returned or exception raised. -/
structure RetryOutcome (α : Type) where
  calls : Nat
  delays : List ℚ
  result : Except PyErr α

/-- The `for attempt in range(MAX_RETRIES)` loop of `retry_on_429`
(create_clip.py lines 38-53).  `f a` is the outcome of the invocation at
attempt index `a`; `jitter a` is the `random.uniform(0, 2)` draw at that
attempt; `remaining` counts loop iterations left.  When the loop body
never runs or falls through, the final `raise last_exception` raises the
stored exception, or a `TypeError` when `last_exception` is still None. -/
def retryLoop {α : Type} (f : Nat → Except PyErr α) (jitter : Nat → ℚ) :
    Nat → Nat → Option PyErr → List ℚ → Nat → RetryOutcome α
  | _, 0, lastE, delays, calls =>
      { calls := calls, delays := delays,
        result := .error (match lastE with
          | some e => e
          | none => PyErr.typeError "exceptions must derive from BaseException") }
  | a, remaining + 1, _, delays, calls =>
      match f a with
      | .ok v => { calls := calls + 1, delays := delays, result := .ok v }
      | .error e =>
        if isException e then
          if is429 e then
            retryLoop f jitter (a + 1) remaining (some e)
              (delays ++ [delayFor a (jitter a)]) (calls + 1)
          else { calls := calls + 1, delays := delays, result := .error e }
        else { calls := calls + 1, delays := delays, result := .error e }

/-- The decorator `retry_on_429` (create_clip.py lines 32-54) applied to a
wrapped operation, with the attempt cap passed explicitly (the module
global `MAX_RETRIES` defaults to 8 and is overridable via
`--max-retries`). -/
def retry_on_429 {α : Type} (f : Nat → Except PyErr α) (jitter : Nat → ℚ)
    (maxRetries : Nat) : RetryOutcome α :=
  retryLoop f jitter 0 maxRetries none [] 0

/-! ## Clip pipeline (`create_clip.py`) -/

/-- Model of `part.inline_data` on a response part: mime type and payload
bytes (bytes as a list of byte values). -/
structure InlineData where
  mime_type : String
  data : List Nat
deriving DecidableEq

/-- One part of `response.candidates[0].content.parts` in an
image-generation response: `inline_data` is None or present. -/
structure ImgPart where
  inline_data : Option InlineData
deriving DecidableEq

/-- Model of Python `s.startswith(p)`. -/
def strStartsWith (s p : String) : Bool :=
  p.data.isPrefixOf s.data

/-- The extraction loop shared by `generate_image` (create_clip.py lines
116-122) and `generate_variation` (lines 152-158): return the bytes of the
first part whose `inline_data` is present with a mime type starting with
"image/"; an `InlineData` object is always truthy in Python. -/
def extractImage : List ImgPart → Option (List Nat)
  | [] => none
  | p :: rest =>
    match p.inline_data with
    | some d =>
      if strStartsWith d.mime_type "image/" then some d.data
      else extractImage rest
    | none => extractImage rest

/-- Body of `generate_image` as seen by its `retry_on_429` wrapper: a
response with an image part saves the bytes and returns the output path;
otherwise the code prints an error and calls `sys.exit(1)` (create_clip.py
lines 124-125).  The stub response is the same for every attempt. -/
def generate_image_run (resp : List ImgPart) (output_path : String)
    (maxRetries : Nat) (jitter : Nat → ℚ) : RetryOutcome String :=
  retry_on_429
    (fun _ =>
      match extractImage resp with
      | some _ => Except.ok output_path
      | none => Except.error (PyErr.systemExit 1))
    jitter maxRetries

/-- Body of `generate_variation` under its `retry_on_429` wrapper
(create_clip.py lines 152-161); the artifact-extraction and failure
behavior is identical to `generate_image`. -/
def generate_variation_run (resp : List ImgPart) (output_path : String)
    (maxRetries : Nat) (jitter : Nat → ℚ) : RetryOutcome String :=
  retry_on_429
    (fun _ =>
      match extractImage resp with
      | some _ => Except.ok output_path
      | none => Except.error (PyErr.systemExit 1))
    jitter maxRetries

/-- One generated-video entry (`result.generated_videos[i].video`):
`video_bytes` models the inline payload after any base64 text decoding
(create_clip.py lines 205-208), `uri` the GCS storage reference.  Python
truthiness makes empty bytes and the empty string falsy. -/
structure VideoObj where
  video_bytes : Option (List Nat)
  uri : Option String
deriving DecidableEq

/-- The remote operation handle as read by the poll loop and the result
extraction in `generate_video`: the `done` flag, the truthiness of
`operation.response`, and `operation.result.generated_videos` (inlined
here; it is only read when `response` is truthy). -/
structure OperationHandle where
  done : Bool
  response : Bool
  generated_videos : List VideoObj
deriving DecidableEq

/-- create_clip.py line 197: `time.sleep(15)` between polls, in seconds. -/
def POLL_INTERVAL : ℚ := 15

/-- The poll loop of `generate_video` (create_clip.py lines 193-198) over
the refetch sequence `ops` (`ops 0` is the handle returned by
`generate_videos`; `ops (n+1)` is `client.operations.get` applied after n+1
refetches), searching from index `n` with `fuel` remaining iterations.
The source loop has no iteration cap; `fuel` is a modelling artifact
bounding how far we unroll it, and `none` means the loop is still running
after `fuel` checks. -/
def pollLoopFrom (ops : Nat → OperationHandle) (n : Nat) : Nat → Option Nat
  | 0 => none
  | fuel + 1 => if (ops n).done then some n else pollLoopFrom ops (n + 1) fuel

/-- The poll loop started at the initial handle: returns the index of the
first handle whose `done` flag is true, which is also the number of
15-second sleeps and refetches performed. -/
def pollUntilDone (ops : Nat → OperationHandle) (fuel : Nat) : Option Nat :=
  pollLoopFrom ops 0 fuel

/-- The three ways the terminal-result extraction of `generate_video`
(create_clip.py lines 200-219) can end: save inline bytes and return the
output path; print the GCS uri and return None; or print
"ERROR: No video generated" and return None. -/
inductive VideoOutcome where
  | saved (path : String) (bytes : List Nat)
  | gcsReference (uri : String)
  | noVideo
deriving DecidableEq

/-- What the wrapped `generate_video` returns to its caller for each
outcome: only the inline-bytes case returns a path; both the
storage-reference case and the no-video case return None, and none of the
three raises. -/
def outcomeReturn : VideoOutcome → Option String
  | .saved p _ => some p
  | .gcsReference _ => none
  | .noVideo => none

/-- The terminal-result extraction of `generate_video` (create_clip.py
lines 200-219), following Python truthiness: `operation.response`, then
`result.generated_videos` nonempty, then `video.video_bytes` truthy, else
`video.uri` truthy, else fall through to the no-video error print. -/
def extractVideoResult (op : OperationHandle) (output_path : String) : VideoOutcome :=
  if op.response then
    match op.generated_videos with
    | [] => .noVideo
    | v :: _ =>
      match v.video_bytes with
      | some b =>
        if b ≠ [] then .saved output_path b
        else
          match v.uri with
          | some u => if u ≠ "" then .gcsReference u else .noVideo
          | none => .noVideo
      | none =>
        match v.uri with
        | some u => if u ≠ "" then .gcsReference u else .noVideo
        | none => .noVideo
  else .noVideo

/-- `generate_video` after submission: drive the poll loop to the first
done handle, then extract the terminal result; `none` when the loop is
still running after `fuel` checks. -/
def generate_video_model (ops : Nat → OperationHandle) (fuel : Nat)
    (output_path : String) : Option VideoOutcome :=
  (pollUntilDone ops fuel).map fun k => extractVideoResult (ops k) output_path

/-- Python `pathlib.Path` defines neither a bool conversion nor a length,
so every `Path` object is truthy; `if video_path else None` at line 280 of
create_clip.py therefore never takes its else branch. -/
def pathTruthy (_p : String) : Bool := true

/-- The result dictionary built by `create_clip` (create_clip.py lines
276-281), with the dict key `end` spelled `end_`. -/
structure ClipResult where
  clip_id : String
  start : String
  end_ : String
  video : Option String
deriving DecidableEq

/-- The `create_clip` pipeline (create_clip.py lines 222-281) over stub
collaborators: `startResp` and `endResp` are the image responses for the
two frame stages, `videoOps` the video operation refetch sequence.  The
start frame, then the end frame, are generated under retry; a fatal exit
propagates.  At line 270 the return value of `generate_video` is
discarded, and at line 280 the dict entry tests the local `video_path`
Path, so the `video` field does not depend on the video outcome.  The
result is `Except.ok none` when the poll loop is still running after
`fuel` checks (a modelling artifact). -/
def create_clip (clip_id output_dir : String)
    (startResp endResp : List ImgPart)
    (videoOps : Nat → OperationHandle) (fuel : Nat)
    (maxRetries : Nat) (jitter : Nat → ℚ) :
    Except PyErr (Option ClipResult) :=
  let clip_dir := output_dir ++ "/" ++ clip_id
  let start_path := clip_dir ++ "/start.png"
  match (generate_image_run startResp start_path maxRetries jitter).result with
  | .error e => .error e
  | .ok _ =>
    let end_path := clip_dir ++ "/end.png"
    match (generate_variation_run endResp end_path maxRetries jitter).result with
    | .error e => .error e
    | .ok _ =>
      let video_path := clip_dir ++ "/clip.mp4"
      match generate_video_model videoOps fuel video_path with
      | none => .ok none
      | some _ =>
        .ok (some
          { clip_id := clip_id, start := start_path, end_ := end_path,
            video := if pathTruthy video_path then some video_path else none })

/-! ## Clip chaining (`chain_clips.py`) -/

/-- The three concatenation strategies of chain_clips.py. -/
inductive Strategy where
  | crossfade
  | reencode
  | simple
deriving DecidableEq

/-- The strategy dispatch in `chain_clips` (chain_clips.py lines 224-229):
`if crossfade > 0`, else `elif reencode`, else the concat demuxer. -/
def chooseStrategy (crossfade : ℚ) (reencode : Bool) : Strategy :=
  if crossfade > 0 then .crossfade
  else if reencode then .reencode
  else .simple

/-- The xfade offsets written into the `-filter_complex` argument by
`concat_with_crossfade` (chain_clips.py lines 94-126): the literal strings
contain `offset=3.5` for two clips and `offset=3.5` then `offset=7` for
three clips, whatever the fade duration or the probed clip durations are;
any other clip count prints an error and calls `sys.exit(1)`. -/
def concat_with_crossfade_offsets (clip_paths : List String) (_fade_duration : ℚ) :
    Except PyErr (List ℚ) :=
  match clip_paths with
  | [_, _] => .ok [7 / 2]
  | [_, _, _] => .ok [7 / 2, 7]
  | _ => .error (PyErr.systemExit 1)

/-- Modelled from the spec: the crossfade offset law of spec section 4.4,
absent from the source (which hardcodes its offsets).  Each transition
between a preceding segment of measured duration D and a fade of length f
starts at offset D - f; for three clips the second transition's D is the
duration of the already-fused first pair, d1 + d2 - f. -/
def specCrossfadeOffsets (durations : List ℚ) (f : ℚ) : List ℚ :=
  match durations with
  | [d1, _] => [d1 - f]
  | [d1, d2, _] => [d1 - f, d1 + d2 - f - f]
  | _ => []

/-- Outcome of one `subprocess.run` of ffprobe as read by
`get_video_duration`: the exit code and the captured standard output. -/
structure ProbeResult where
  returncode : Int
  stdout : String
deriving DecidableEq

/-- Value of a list of decimal digit characters. -/
def digitsToNat (cs : List Char) : Nat :=
  cs.foldl (fun a c => a * 10 + (c.toNat - 48)) 0

/-- Model of Python `float(s)` on the plain decimal literals ffprobe
prints: an optional sign, then digits with at most one decimal point and
at least one digit; anything else (such as an empty string or "N/A")
raises, modeled as `none`. -/
def pyFloat (s : String) : Option ℚ :=
  let cs := s.data
  let signed : ℚ × List Char :=
    match cs with
    | '-' :: rest => (-1, rest)
    | '+' :: rest => (1, rest)
    | _ => (1, cs)
  let intPart := signed.2.takeWhile Char.isDigit
  let rest := signed.2.dropWhile Char.isDigit
  match rest with
  | [] =>
    if intPart ≠ [] then some (signed.1 * digitsToNat intPart) else none
  | '.' :: frac =>
    if frac.all Char.isDigit ∧ (intPart ≠ [] ∨ frac ≠ []) then
      some (signed.1 * ((digitsToNat intPart : ℚ) + digitsToNat frac / 10 ^ frac.length))
    else none
  | _ => none

/-- Model of Python `s.strip()`: remove leading and trailing whitespace. -/
def pyStrip (s : String) : String :=
  String.mk (((s.data.dropWhile Char.isWhitespace).reverse.dropWhile
    Char.isWhitespace).reverse)

/-- `get_video_duration` (chain_clips.py lines 174-186): on a zero exit
code, `float(result.stdout.strip())` — which raises a ValueError when the
output does not parse — and on any non-zero exit code, `0.0` with no
error. -/
def get_video_duration (probe : ProbeResult) : Except PyErr ℚ :=
  if probe.returncode == 0 then
    match pyFloat (pyStrip probe.stdout) with
    | some q => .ok q
    | none => .error (PyErr.valueError "could not convert string to float")
  else .ok 0

/-- The per-clip duration loop of `chain_clips` (chain_clips.py lines
206-217): each clip's probe outcome is fed to `get_video_duration`; a
raised exception propagates, otherwise chaining proceeds with the
collected durations. -/
def collectDurations : List ProbeResult → Except PyErr (List ℚ)
  | [] => .ok []
  | p :: rest =>
    match get_video_duration p with
    | .error e => .error e
    | .ok d =>
      match collectDurations rest with
      | .error e => .error e
      | .ok ds => .ok (d :: ds)

/-! ## Concrete stub inputs used to exercise the model -/

/-- A jitter draw of 0 at every attempt (within the range of
`random.uniform(0, 2)`). -/
def zeroJitter : Nat → ℚ := fun _ => 0

/-- An operation that fails with a rate-limit-shaped error on every
attempt. -/
def always429 : Nat → Except PyErr Nat := fun _ =>
  Except.error (PyErr.exception "429 quota")

/-- An operation that fails with a rate-limit-shaped error on attempts 0
and 1 and then succeeds. -/
def succAfter2 : Nat → Except PyErr Nat := fun n =>
  if n < 2 then Except.error (PyErr.exception "429 quota") else Except.ok 7

/-- An operation that fails with an error carrying no rate-limit marker. -/
def nonTransientOp : Nat → Except PyErr Nat := fun _ =>
  Except.error (PyErr.exception "invalid argument")

/-- An image response holding one PNG part. -/
def okImgResp : List ImgPart :=
  [ { inline_data := some { mime_type := "image/png", data := [ 1, 2, 3 ] } } ]

/-- A terminal video operation carrying only a GCS storage reference. -/
def gcsOp : OperationHandle :=
  { done := true, response := true,
    generated_videos := [ { video_bytes := none, uri := some "gs://bucket/clip.mp4" } ] }

/-- A terminal video operation whose result holds no generated video. -/
def noVideoOp : OperationHandle :=
  { done := true, response := true, generated_videos := [] }

/-- A refetch sequence that first reports done on the second refetch. -/
def doneAt2Ops : Nat → OperationHandle := fun n =>
  { done := n == 2, response := true, generated_videos := [] }

/-- A refetch sequence that never reports done. -/
def neverDoneOps : Nat → OperationHandle := fun _ =>
  { done := false, response := false, generated_videos := [] }

deriving instance DecidableEq for Except

/-! ## Helper lemmas -/

lemma retryLoop_success {α : Type} (f : Nat → Except PyErr α) (jitter : Nat → ℚ)
    (g : Nat → PyErr) (v : α) :
    ∀ (k a r c : Nat) (d : List ℚ) (le : Option PyErr),
      k < r →
      (∀ n, n < k → f (a + n) = Except.error (g (a + n)) ∧
        isException (g (a + n)) = true ∧ is429 (g (a + n)) = true) →
      f (a + k) = Except.ok v →
      (retryLoop f jitter a r le d c).calls = c + (k + 1) ∧
      (retryLoop f jitter a r le d c).result = Except.ok v := by
  intro k
  induction k with
  | zero =>
    intro a r c d le hkr _ hsucc
    obtain ⟨r', rfl⟩ : ∃ r', r = r' + 1 := ⟨r - 1, by omega⟩
    rw [show a + 0 = a from rfl] at hsucc
    simp [retryLoop, hsucc]
  | succ k ih =>
    intro a r c d le hkr hfail hsucc
    obtain ⟨r', rfl⟩ : ∃ r', r = r' + 1 := ⟨r - 1, by omega⟩
    obtain ⟨hfa, hexc, h429⟩ := hfail 0 (by omega)
    rw [show a + 0 = a from rfl] at hfa hexc h429
    have step : retryLoop f jitter a (r' + 1) le d c =
        retryLoop f jitter (a + 1) r' (some (g a))
          (d ++ [delayFor a (jitter a)]) (c + 1) := by
      simp [retryLoop, hfa, hexc, h429]
    have hf : ∀ n, n < k → f (a + 1 + n) = Except.error (g (a + 1 + n)) ∧
        isException (g (a + 1 + n)) = true ∧ is429 (g (a + 1 + n)) = true := by
      intro n hn
      have h := hfail (n + 1) (by omega)
      rwa [show a + (n + 1) = a + 1 + n from by omega] at h
    have hs : f (a + 1 + k) = Except.ok v := by
      rwa [show a + (k + 1) = a + 1 + k from by omega] at hsucc
    have hmain := ih (a + 1) r' (c + 1) (d ++ [delayFor a (jitter a)]) (some (g a))
      (by omega) hf hs
    constructor
    · rw [step, hmain.1]; omega
    · rw [step, hmain.2]

lemma retryLoop_allfail {α : Type} (f : Nat → Except PyErr α) (jitter : Nat → ℚ)
    (g : Nat → PyErr) :
    ∀ (r a c : Nat) (d : List ℚ) (le : Option PyErr),
      (∀ n, n ≤ r → f (a + n) = Except.error (g (a + n)) ∧
        isException (g (a + n)) = true ∧ is429 (g (a + n)) = true) →
      (retryLoop f jitter a (r + 1) le d c).calls = c + (r + 1) ∧
      (retryLoop f jitter a (r + 1) le d c).result = Except.error (g (a + r)) := by
  intro r
  induction r with
  | zero =>
    intro a c d le hfail
    obtain ⟨hfa, hexc, h429⟩ := hfail 0 (by omega)
    rw [show a + 0 = a from rfl] at hfa hexc h429
    simp [retryLoop, hfa, hexc, h429]
  | succ r ih =>
    intro a c d le hfail
    obtain ⟨hfa, hexc, h429⟩ := hfail 0 (by omega)
    rw [show a + 0 = a from rfl] at hfa hexc h429
    have step : retryLoop f jitter a (r + 1 + 1) le d c =
        retryLoop f jitter (a + 1) (r + 1) (some (g a))
          (d ++ [delayFor a (jitter a)]) (c + 1) := by
      simp [retryLoop, hfa, hexc, h429]
    have hf : ∀ n, n ≤ r → f (a + 1 + n) = Except.error (g (a + 1 + n)) ∧
        isException (g (a + 1 + n)) = true ∧ is429 (g (a + 1 + n)) = true := by
      intro n hn
      have h := hfail (n + 1) (by omega)
      rwa [show a + (n + 1) = a + 1 + n from by omega] at h
    have hmain := ih (a + 1) (c + 1) (d ++ [delayFor a (jitter a)]) (some (g a)) hf
    have hae : a + 1 + r = a + (r + 1) := by omega
    constructor
    · rw [step, hmain.1]; omega
    · rw [step, hmain.2, hae]

lemma pollLoopFrom_finds (ops : Nat → OperationHandle) :
    ∀ (k n fuel : Nat),
      (ops (n + k)).done = true →
      (∀ j, j < k → (ops (n + j)).done = false) →
      k < fuel →
      pollLoopFrom ops n fuel = some (n + k) := by
  intro k
  induction k with
  | zero =>
    intro n fuel hdone _ hfuel
    obtain ⟨f', rfl⟩ : ∃ f', fuel = f' + 1 := ⟨fuel - 1, by omega⟩
    rw [show n + 0 = n from rfl] at hdone
    simp [pollLoopFrom, hdone]
  | succ k ih =>
    intro n fuel hdone hfirst hfuel
    obtain ⟨f', rfl⟩ : ∃ f', fuel = f' + 1 := ⟨fuel - 1, by omega⟩
    have h0 : (ops n).done = false := by
      have h := hfirst 0 (by omega)
      rwa [show n + 0 = n from rfl] at h
    have hd : (ops (n + 1 + k)).done = true := by
      rwa [show n + (k + 1) = n + 1 + k from by omega] at hdone
    have hf : ∀ j, j < k → (ops (n + 1 + j)).done = false := by
      intro j hj
      have h := hfirst (j + 1) (by omega)
      rwa [show n + (j + 1) = n + 1 + j from by omega] at h
    have hmain := ih (n + 1) f' hd hf (by omega)
    rw [show n + (k + 1) = n + 1 + k from by omega]
    simpa [pollLoopFrom, h0] using hmain

lemma pollLoopFrom_never (ops : Nat → OperationHandle)
    (h : ∀ n, (ops n).done = false) :
    ∀ (fuel n : Nat), pollLoopFrom ops n fuel = none := by
  intro fuel
  induction fuel with
  | zero => intro n; rfl
  | succ fuel ih => intro n; simp [pollLoopFrom, h, ih]

/-! ## Claim theorems -/

/-- Claim C1 (code bug): the crossfade strategy hardcodes the xfade
offsets 3.5 and 7 in its filter graphs, whatever the fade length and the
probed clip durations are; the specified offset law D - f instead yields
3.0 for two 4.0-second clips with a 1.0-second fade (and 3.0 then 6.0 for
three such clips), and 3.5 differs from 3.0. -/
theorem crossfade_offsets_hardcoded :
    concat_with_crossfade_offsets [ "a.mp4", "b.mp4" ] 1 = Except.ok [ 7 / 2 ] ∧
    specCrossfadeOffsets [ 4, 4 ] 1 = [ 3 ] ∧
    concat_with_crossfade_offsets [ "a.mp4", "b.mp4", "c.mp4" ] 1 = Except.ok [ 7 / 2, 7 ] ∧
    specCrossfadeOffsets [ 4, 4, 4 ] 1 = [ 3, 6 ] ∧
    (7 / 2 : ℚ) ≠ 3 := by
  refine ⟨rfl, ?_, rfl, ?_, by norm_num⟩ <;> simp [specCrossfadeOffsets] <;> norm_num

/-- Claim C2 (code bug): with a video stub that terminates at once
carrying only a GCS storage reference, the pipeline completes and the
reference is surfaced (the extraction ends in the storage-reference
outcome, whose return value is None), but the returned dictionary's
`video` entry is the local clip path rather than None, because line 270 of
create_clip.py discards the return value of `generate_video` and line 280
tests the always-truthy local Path. -/
theorem storage_reference_video_path_not_null :
    create_clip "t1" "output" okImgResp okImgResp (fun _ => gcsOp) 1 8 zeroJitter =
      Except.ok (some
        { clip_id := "t1", start := "output/t1/start.png",
          end_ := "output/t1/end.png", video := some "output/t1/clip.mp4" }) ∧
    generate_video_model (fun _ => gcsOp) 1 "output/t1/clip.mp4" =
      some (VideoOutcome.gcsReference "gs://bucket/clip.mp4") ∧
    outcomeReturn (VideoOutcome.gcsReference "gs://bucket/clip.mp4") = none ∧
    some "output/t1/clip.mp4" ≠ (none : Option String) := by
  refine ⟨by decide, by decide, rfl, by decide⟩

/-- Claim C3 (counterexample): a terminal video operation whose successful
response carries no generated video does not abort the pipeline: the
extraction ends in the no-video outcome, the wrapped `generate_video`
returns None without raising, and `create_clip` still completes with an
ok result instead of failing. -/
theorem no_artifact_video_stage_not_fatal :
    extractVideoResult noVideoOp "output/t1/clip.mp4" = VideoOutcome.noVideo ∧
    outcomeReturn (extractVideoResult noVideoOp "output/t1/clip.mp4") = none ∧
    create_clip "t1" "output" okImgResp okImgResp (fun _ => noVideoOp) 1 8 zeroJitter =
      Except.ok (some
        { clip_id := "t1", start := "output/t1/start.png",
          end_ := "output/t1/end.png", video := some "output/t1/clip.mp4" }) := by
  refine ⟨by decide, by decide, by decide⟩

/-- Claim C3 (amended): for the start-frame and end-frame stages, a
successful response with no extractable image part exits fatally after a
single invocation — the `SystemExit` is not caught by the retry wrapper,
so there is no retry — while for the video stage a terminal response with
no generated video is not fatal: the extraction yields the no-video
outcome and the wrapped call returns None, likewise without any retry. -/
theorem no_artifact_stage_behavior (resp : List ImgPart) (path : String) (m : Nat)
    (jitter : Nat → ℚ) (op : OperationHandle)
    (himg : extractImage resp = none) (hm : 1 ≤ m)
    (hresp : op.response = true) (hvids : op.generated_videos = []) :
    (generate_image_run resp path m jitter).calls = 1 ∧
    (generate_image_run resp path m jitter).result = Except.error (PyErr.systemExit 1) ∧
    (generate_variation_run resp path m jitter).calls = 1 ∧
    (generate_variation_run resp path m jitter).result = Except.error (PyErr.systemExit 1) ∧
    extractVideoResult op path = VideoOutcome.noVideo ∧
    outcomeReturn (extractVideoResult op path) = none := by
  obtain ⟨r, rfl⟩ : ∃ r, m = r + 1 := ⟨m - 1, by omega⟩
  refine ⟨?_, ?_, ?_, ?_, ?_, ?_⟩ <;>
    simp [generate_image_run, generate_variation_run, retry_on_429, retryLoop, himg,
      isException, extractVideoResult, hresp, hvids, outcomeReturn]

/-- Witness for the amended claim C3 at a concrete empty image response
and the concrete no-video terminal operation. -/
theorem no_artifact_stage_behavior_witness :
    (generate_image_run [] "output/t1/start.png" 8 zeroJitter).calls = 1 ∧
    (generate_image_run [] "output/t1/start.png" 8 zeroJitter).result =
      Except.error (PyErr.systemExit 1) ∧
    (generate_variation_run [] "output/t1/start.png" 8 zeroJitter).calls = 1 ∧
    (generate_variation_run [] "output/t1/start.png" 8 zeroJitter).result =
      Except.error (PyErr.systemExit 1) ∧
    extractVideoResult noVideoOp "output/t1/start.png" = VideoOutcome.noVideo ∧
    outcomeReturn (extractVideoResult noVideoOp "output/t1/start.png") = none :=
  no_artifact_stage_behavior [] "output/t1/start.png" 8 zeroJitter noVideoOp
    (by decide) (by decide) (by decide) (by decide)

/-- Claim C4 (counterexample): an operation failing with the same
rate-limit-shaped error on every attempt, run with an attempt cap of 3,
is invoked 3 times and the raised value is the last underlying error
itself — not a RetryExhausted wrapper around it, which would be a
different value. -/
theorem retry_exhaustion_unwrapped :
    (retry_on_429 always429 zeroJitter 3).calls = 3 ∧
    (retry_on_429 always429 zeroJitter 3).result =
      Except.error (PyErr.exception "429 quota") ∧
    (Except.error (PyErr.exception "429 quota") : Except PyErr Nat) ≠
      Except.error (PyErr.retryExhausted (PyErr.exception "429 quota")) := by
  refine ⟨by decide, by decide, by decide⟩

/-- Claim C4 (amended): for an operation that fails with a transient error
on every attempt, `retry_on_429` with attempt cap `m` invokes the
operation exactly `m` times and then re-raises the last observed
underlying error itself (no wrapper object is created). -/
theorem retry_exhaustion_raises_last_error {α : Type}
    (f : Nat → Except PyErr α) (g : Nat → PyErr) (m : Nat) (jitter : Nat → ℚ)
    (hm : 1 ≤ m)
    (hfail : ∀ n, n < m → f n = Except.error (g n) ∧
      isException (g n) = true ∧ is429 (g n) = true) :
    (retry_on_429 f jitter m).calls = m ∧
    (retry_on_429 f jitter m).result = Except.error (g (m - 1)) := by
  obtain ⟨r, rfl⟩ : ∃ r, m = r + 1 := ⟨m - 1, by omega⟩
  have h := retryLoop_allfail f jitter g r 0 0 [] none ?_
  · constructor
    · simp only [retry_on_429]; rw [h.1]; omega
    · simp only [retry_on_429]; rw [h.2]; simp
  · intro n hn
    simpa using hfail n (by omega)

/-- Witness for the amended claim C4 at the concrete always-failing
operation with attempt cap 3. -/
theorem retry_exhaustion_raises_last_error_witness :
    (retry_on_429 always429 zeroJitter 3).calls = 3 ∧
    (retry_on_429 always429 zeroJitter 3).result =
      Except.error (PyErr.exception "429 quota") :=
  retry_exhaustion_raises_last_error always429
    (fun _ => PyErr.exception "429 quota") 3 zeroJitter (by omega) (by decide)

/-- Claim C5: an operation that fails transiently on attempts 0..k-1 with
k below the attempt cap and succeeds on attempt k is invoked exactly k+1
times by `retry_on_429`, which returns the success value with no further
attempts. -/
theorem retry_success_after_k_failures {α : Type}
    (f : Nat → Except PyErr α) (g : Nat → PyErr) (v : α) (k m : Nat)
    (jitter : Nat → ℚ)
    (hk : k < m)
    (hfail : ∀ n, n < k → f n = Except.error (g n) ∧
      isException (g n) = true ∧ is429 (g n) = true)
    (hsucc : f k = Except.ok v) :
    (retry_on_429 f jitter m).calls = k + 1 ∧
    (retry_on_429 f jitter m).result = Except.ok v := by
  have h := retryLoop_success f jitter g v k 0 m 0 [] none hk
    (fun n hn => by simpa using hfail n hn) (by simpa using hsucc)
  constructor
  · simp only [retry_on_429]; rw [h.1]; omega
  · simp only [retry_on_429]; rw [h.2]

/-- Witness for claim C5: two transient failures then success with cap 8
give 3 invocations and the success value 7. -/
theorem retry_success_after_k_failures_witness :
    (retry_on_429 succAfter2 zeroJitter 8).calls = 3 ∧
    (retry_on_429 succAfter2 zeroJitter 8).result = Except.ok 7 :=
  retry_success_after_k_failures succAfter2 (fun _ => PyErr.exception "429 quota")
    7 2 8 zeroJitter (by omega) (by decide) (by decide)

/-- Claim C6: an operation raising an error with no rate-limit marker on
its first call is invoked exactly once by `retry_on_429`; the error
propagates unchanged and no delay is slept. -/
theorem retry_nontransient_single_call {α : Type}
    (f : Nat → Except PyErr α) (e : PyErr) (m : Nat) (jitter : Nat → ℚ)
    (hm : 1 ≤ m) (h0 : f 0 = Except.error e)
    (hexc : isException e = true) (h429 : is429 e = false) :
    (retry_on_429 f jitter m).calls = 1 ∧
    (retry_on_429 f jitter m).result = Except.error e ∧
    (retry_on_429 f jitter m).delays = [] := by
  obtain ⟨r, rfl⟩ : ∃ r, m = r + 1 := ⟨m - 1, by omega⟩
  simp [retry_on_429, retryLoop, h0, hexc, h429]

/-- Witness for claim C6 at a concrete non-transient failure with the
default cap 8. -/
theorem retry_nontransient_single_call_witness :
    (retry_on_429 nonTransientOp zeroJitter 8).calls = 1 ∧
    (retry_on_429 nonTransientOp zeroJitter 8).result =
      Except.error (PyErr.exception "invalid argument") ∧
    (retry_on_429 nonTransientOp zeroJitter 8).delays = [] :=
  retry_nontransient_single_call nonTransientOp
    (PyErr.exception "invalid argument") 8 zeroJitter
    (by omega) (by decide) (by decide) (by decide)

/-- Claim C7: for every attempt index the computed backoff delay equals
min(BASE_DELAY * 2 ^ attempt + jitter, MAX_DELAY); for any jitter in
[0, 2] it never exceeds MAX_DELAY, and ignoring the jitter it is
monotonically non-decreasing in the attempt index. -/
theorem backoff_delay_formula (a : Nat) (j : ℚ) (_hj0 : 0 ≤ j) (_hj2 : j ≤ 2) :
    delayFor a j = min (BASE_DELAY * 2 ^ a + j) MAX_DELAY ∧
    delayFor a j ≤ MAX_DELAY ∧
    (∀ b : Nat, a ≤ b → delayFor a 0 ≤ delayFor b 0) := by
  refine ⟨rfl, min_le_right _ _, ?_⟩
  intro b hab
  have h2 : (2 : ℚ) ^ a ≤ 2 ^ b := pow_le_pow_right₀ (by norm_num) hab
  have hb : BASE_DELAY * 2 ^ a + 0 ≤ BASE_DELAY * 2 ^ b + 0 := by
    simp only [BASE_DELAY]; nlinarith
  exact min_le_min hb le_rfl

/-- Witness for claim C7 at attempt 2 with jitter 1, compared against
attempt 5. -/
theorem backoff_delay_formula_witness :
    (0 : ℚ) ≤ 1 ∧ (1 : ℚ) ≤ 2 ∧
    delayFor 2 1 ≤ MAX_DELAY ∧ delayFor 2 0 ≤ delayFor 5 0 :=
  ⟨by norm_num, by norm_num,
    (backoff_delay_formula 2 1 (by norm_num) (by norm_num)).2.1,
    (backoff_delay_formula 2 1 (by norm_num) (by norm_num)).2.2 5 (by omega)⟩

/-- Claim C8: strategy selection in `chain_clips` follows the precedence:
a positive crossfade duration selects the crossfade strategy regardless of
the reencode flag; otherwise a set reencode flag selects the reencode
strategy; otherwise the direct-concat strategy is used. -/
theorem strategy_selection_precedence (c : ℚ) (r : Bool) :
    (0 < c → chooseStrategy c r = Strategy.crossfade) ∧
    (¬ 0 < c → r = true → chooseStrategy c r = Strategy.reencode) ∧
    (¬ 0 < c → r = false → chooseStrategy c r = Strategy.simple) := by
  refine ⟨fun h => ?_, fun h hr => ?_, fun h hr => ?_⟩
  · simp [chooseStrategy, h]
  · simp [chooseStrategy, h, hr]
  · simp [chooseStrategy, h, hr]

/-- Witness for claim C8: crossfade 1.5 with reencode set still selects
the crossfade strategy, and crossfade 0 without reencode selects the
direct-concat strategy. -/
theorem strategy_selection_precedence_witness :
    chooseStrategy (3 / 2) true = Strategy.crossfade ∧
    chooseStrategy 0 false = Strategy.simple :=
  ⟨(strategy_selection_precedence (3 / 2) true).1 (by norm_num),
    (strategy_selection_precedence 0 false).2.2 (by norm_num) rfl⟩

/-- Claim C9: the poll loop returns the index of the first refetched
handle whose done flag is true — having slept and refetched exactly that
many times — whenever one exists within the unrolling bound, and for a
refetch sequence that never reports done it yields nothing at every
unrolling bound: the source loop has no iteration cap or deadline and
never terminates on such a sequence. -/
theorem poll_until_done_unbounded (ops never : Nat → OperationHandle) (k fuel : Nat)
    (hdone : (ops k).done = true)
    (hfirst : ∀ j, j < k → (ops j).done = false)
    (hfuel : k < fuel)
    (hnever : ∀ n, (never n).done = false) :
    pollUntilDone ops fuel = some k ∧
    (∀ fl : Nat, pollUntilDone never fl = none) := by
  constructor
  · have h := pollLoopFrom_finds ops k 0 fuel (by simpa using hdone)
      (fun j hj => by simpa using hfirst j hj) hfuel
    simpa [pollUntilDone] using h
  · intro fl
    exact pollLoopFrom_never never hnever fl 0

/-- Witness for claim C9: a sequence first done at index 2 polled with
bound 5 stops at index 2, and a never-done sequence yields nothing at
bound 7. -/
theorem poll_until_done_unbounded_witness :
    pollUntilDone doneAt2Ops 5 = some 2 ∧ pollUntilDone neverDoneOps 7 = none :=
  ⟨(poll_until_done_unbounded doneAt2Ops neverDoneOps 2 5 (by decide)
      (by decide) (by omega) (fun _ => rfl)).1,
    (poll_until_done_unbounded doneAt2Ops neverDoneOps 2 5 (by decide)
      (by decide) (by omega) (fun _ => rfl)).2 7⟩

/-- Claim C10 (counterexample): a probe that exits 0 but prints output
that does not parse as a float makes `get_video_duration` raise a
ValueError rather than return 0.0; only a non-zero exit code yields 0.0. -/
theorem duration_probe_unparseable_raises :
    get_video_duration { returncode := 0, stdout := "N/A" } =
      Except.error (PyErr.valueError "could not convert string to float") ∧
    get_video_duration { returncode := 1, stdout := "N/A" } = Except.ok 0 := by
  refine ⟨by decide, by decide⟩

/-- Claim C10 (amended): for every probe that exits with a non-zero code,
`get_video_duration` returns 0.0 without raising, and chaining proceeds
treating every such clip's measured duration as zero — probe failures are
never surfaced as an error. -/
theorem duration_probe_failure_returns_zero (probe : ProbeResult)
    (probes : List ProbeResult)
    (h : probe.returncode ≠ 0)
    (hall : ∀ p ∈ probes, p.returncode ≠ 0) :
    get_video_duration probe = Except.ok 0 ∧
    collectDurations probes = Except.ok (probes.map fun _ => (0 : ℚ)) := by
  constructor
  · simp [get_video_duration, h]
  · induction probes with
    | nil => rfl
    | cons p rest ih =>
      have hp : p.returncode ≠ 0 := hall p (by simp)
      have hrest := ih (fun q hq => hall q (by simp [hq]))
      simp [collectDurations, get_video_duration, hp, hrest]

/-- Witness for the amended claim C10 at concrete failing probes. -/
theorem duration_probe_failure_returns_zero_witness :
    get_video_duration { returncode := 2, stdout := "x" } = Except.ok 0 ∧
    collectDurations
      [ { returncode := 1, stdout := "" }, { returncode := -1, stdout := "N/A" } ] =
      Except.ok [ 0, 0 ] :=
  duration_probe_failure_returns_zero { returncode := 2, stdout := "x" }
    [ { returncode := 1, stdout := "" }, { returncode := -1, stdout := "N/A" } ]
    (by decide) (by decide)

end MidTerm
